import Mathlib

/-!
Verification of the TinyJsonRpcServer request pipeline.

The definitions below are a shallow embedding of src/src/TinyJsonRpcServer.ts.
JavaScript runtime values are modelled by `JsValue`; JavaScript numbers by
`JsNumber` (finite values in scaled-decimal form, plus NaN and infinities).
Host-environment conversions (Number coercion, array-join string conversion)
are modelled only as far as the library observes them.  Promise-returning or
throwing handler code is modelled with `Except`: a handler that throws, or
returns a promise that is later rejected, yields `Except.error`; both reach
the same catch clause in the source, so the final value is the same.

Model scope notes, fixed once for the whole file:
- boxed wrapper objects (new String, new Number) are not modelled; `isString`
  recognises exactly primitive strings, as JSON-derived data only contains
  primitives;
- the method table is modelled as a plain association list; prototype-chain
  lookups of the underlying JavaScript object are outside the model;
- string-to-number coercion covers trimmed decimal literals with optional
  sign and fraction, the empty string, and Infinity; hexadecimal and exponent
  forms are omitted (no theorem below depends on them);
- fractional numbers are printed in mantissa-scale form by `jsNumToString`;
  only nested array-join coercions of fractional numbers would observe this.
-/

/-- A JavaScript number: NaN, the infinities, or a finite value.  A finite
value is kept in scaled-decimal form as `m / 10 ^ e`, which covers every
number the library and its inputs mention (integers and decimal literals).
The representation is not canonical (15/10^1 and 150/10^2 both stand for
1.5), which is harmless here: the library never compares two numbers with
each other, it only constructs, stores and passes them through. -/
inductive JsNumber where
  | nan
  | posInf
  | negInf
  | fin (m : Int) (e : Nat)
deriving DecidableEq

/-- Ten to a given power, by plain recursion so that it reduces. -/
def pow10 : Nat → Int
  | 0 => 1
  | n + 1 => 10 * pow10 n

/-- Whether a finite scaled-decimal number denotes an integer. -/
def jsNumberIsInt : JsNumber → Bool
  | .fin m e => m % pow10 e = 0
  | _ => false

mutual

/-- A JavaScript runtime value, as far as the library observes it.  `fn`
stands for a function value; the tag only keeps distinct functions distinct.
Array elements and object fields use the mutual list types below so that
decidable equality and the recursions stay structural. -/
inductive JsValue where
  | undef
  | null
  | bool (b : Bool)
  | num (n : JsNumber)
  | str (s : String)
  | arr (elems : JsValueList)
  | obj (fields : JsFieldList)
  | fn (tag : Nat)
deriving DecidableEq

/-- A list of JavaScript values (array contents). -/
inductive JsValueList where
  | nil
  | cons (head : JsValue) (tail : JsValueList)
deriving DecidableEq

/-- The own fields of a JavaScript object, in insertion order. -/
inductive JsFieldList where
  | nil
  | cons (key : String) (value : JsValue) (tail : JsFieldList)
deriving DecidableEq

end

/-- Array contents as a plain Lean list. -/
def JsValueList.toList : JsValueList → List JsValue
  | .nil => []
  | .cons a t => a :: t.toList

/-- Build array contents from a plain Lean list. -/
def jsValueListOf : List JsValue → JsValueList
  | [] => JsValueList.nil
  | a :: t => JsValueList.cons a (jsValueListOf t)

/-- Build object fields from a plain Lean list of pairs. -/
def jsFieldListOf : List (String × JsValue) → JsFieldList
  | [] => JsFieldList.nil
  | (k, v) :: t => JsFieldList.cons k v (jsFieldListOf t)

/-- First field with the given key. -/
def JsFieldList.lookupField : JsFieldList → String → Option JsValue
  | .nil, _ => none
  | .cons k v t, key => if k = key then some v else t.lookupField key

/-- Shorthand for an object literal value. -/
def jsObj (fields : List (String × JsValue)) : JsValue :=
  JsValue.obj (jsFieldListOf fields)

/-- Shorthand for an array literal value. -/
def jsArr (elems : List JsValue) : JsValue :=
  JsValue.arr (jsValueListOf elems)

/-- JavaScript truthiness of a value. -/
def JsValue.truthy : JsValue → Bool
  | .undef => false
  | .null => false
  | .bool b => b
  | .num .nan => false
  | .num (.fin m _) => if m = 0 then false else true
  | .num _ => true
  | .str s => if s = "" then false else true
  | .arr _ => true
  | .obj _ => true
  | .fn _ => true

/-- The JavaScript typeof operator. -/
def jsTypeof : JsValue → String
  | .undef => "undefined"
  | .null => "object"
  | .bool _ => "boolean"
  | .num _ => "number"
  | .str _ => "string"
  | .arr _ => "object"
  | .obj _ => "object"
  | .fn _ => "function"

/-- Whether `Object(v) === v` holds in JavaScript: true exactly for the
non-primitive values (arrays, plain objects, functions). -/
def JsValue.isObjectLike : JsValue → Bool
  | .arr _ => true
  | .obj _ => true
  | .fn _ => true
  | _ => false

/-- Property read `v[key]` for the properties the library reads; a missing
field, or a read on a value with no named own properties, gives undefined. -/
def JsValue.getField (v : JsValue) (key : String) : JsValue :=
  match v with
  | .obj fields => (fields.lookupField key).getD JsValue.undef
  | _ => JsValue.undef

/-- The JavaScript `key in v` test, for the keys the library tests. -/
def JsValue.hasField (v : JsValue) (key : String) : Bool :=
  match v with
  | .obj fields => (fields.lookupField key).isSome
  | _ => false

/-- Numeric value of one decimal digit list, most significant first. -/
def digitsVal (cs : List Char) : Int :=
  cs.foldl (fun acc c => acc * 10 + ((c.toNat - '0'.toNat : ℕ) : Int)) 0

/-- Parse an unsigned decimal literal (digits, optional dot, digits); at
least one digit must be present somewhere.  The value is returned in
scaled-decimal form: mantissa and the number of fraction digits. -/
def parseDecimal (cs : List Char) : Option (Int × Nat) :=
  let intPart := cs.takeWhile Char.isDigit
  match cs.dropWhile Char.isDigit with
  | [] => if intPart.isEmpty then none else some (digitsVal intPart, 0)
  | '.' :: fracPart =>
    if fracPart.all Char.isDigit && !(intPart.isEmpty && fracPart.isEmpty) then
      some (digitsVal (intPart ++ fracPart), fracPart.length)
    else none
  | _ => none

/-- Strip leading and trailing whitespace from a character list. -/
def trimChars (cs : List Char) : List Char :=
  ((cs.dropWhile Char.isWhitespace).reverse.dropWhile Char.isWhitespace).reverse

/-- JavaScript string-to-number coercion (model scope: trimmed decimal
literals with optional sign and fraction, the empty string, Infinity). -/
def strToNumber (s : String) : JsNumber :=
  let t := trimChars s.toList
  if t = [] then JsNumber.fin 0 0
  else
    let signed : Int × List Char :=
      match t with
      | '+' :: cs => (1, cs)
      | '-' :: cs => (-1, cs)
      | cs => (1, cs)
    if signed.2 = "Infinity".toList then
      if signed.1 = 1 then JsNumber.posInf else JsNumber.negInf
    else
      match parseDecimal signed.2 with
      | some me => JsNumber.fin (signed.1 * me.1) me.2
      | none => JsNumber.nan

/-- Print a JavaScript number (fractional values print in mantissa-scale
form, a documented model approximation that no theorem depends on). -/
def jsNumToString (n : JsNumber) : String :=
  match n with
  | .nan => "NaN"
  | .posInf => "Infinity"
  | .negInf => "-Infinity"
  | .fin m e => if e = 0 then toString m else toString m ++ "e-" ++ toString e

mutual

/-- JavaScript String(v) conversion, as far as Number coercion observes it. -/
def jsToString : JsValue → String
  | .undef => "undefined"
  | .null => "null"
  | .bool b => if b then "true" else "false"
  | .num n => jsNumToString n
  | .str s => s
  | .arr es => joinElems es
  | .obj _ => "[object Object]"
  | .fn _ => "function () {}"

/-- Array.prototype.toString: elements joined with commas, null and
undefined elements printing as empty. -/
def joinElems : JsValueList → String
  | .nil => ""
  | .cons e .nil => elemPiece e
  | .cons e es => elemPiece e ++ "," ++ joinElems es

/-- One array element inside a join (null and undefined print as empty;
other values print as `jsToString` does). -/
def elemPiece : JsValue → String
  | .undef => ""
  | .null => ""
  | .bool b => if b then "true" else "false"
  | .num n => jsNumToString n
  | .str s => s
  | .arr es => joinElems es
  | .obj _ => "[object Object]"
  | .fn _ => "function () {}"

end

/-- JavaScript Number(v) coercion. -/
def toNumber (v : JsValue) : JsNumber :=
  match v with
  | .undef => JsNumber.nan
  | .null => JsNumber.fin 0 0
  | .bool b => JsNumber.fin (if b then 1 else 0) 0
  | .num n => n
  | .str s => strToNumber s
  | .arr es => strToNumber (joinElems es)
  | .obj _ => strToNumber "[object Object]"
  | .fn _ => JsNumber.nan

/-- Whether a JavaScript number is NaN. -/
def jsIsNaN : JsNumber → Bool
  | .nan => true
  | _ => false

/-- Whether a JavaScript number is finite. -/
def jsIsFiniteNum : JsNumber → Bool
  | .fin _ _ => true
  | _ => false

/-- Source `isNumeric(v)`: `!isNaN(Number(v)) && isFinite(v)` (the global
isFinite also coerces with Number). -/
def isNumeric (v : JsValue) : Bool :=
  !jsIsNaN (toNumber v) && jsIsFiniteNum (toNumber v)

/-- Source `isString(v)` (model scope: primitive strings only). -/
def isString : JsValue → Bool
  | .str _ => true
  | _ => false

/-- Whether a value is an array, the Array.isArray test. -/
def jsIsArray : JsValue → Bool
  | .arr _ => true
  | _ => false

/-- Canonical code PARSE_ERROR from JSONRPC_ERRORCODES. -/
def PARSE_ERROR : Int := -32700

/-- Canonical code INVALID_REQUEST from JSONRPC_ERRORCODES. -/
def INVALID_REQUEST : Int := -32600

/-- Canonical code METHOD_NOT_FOUND from JSONRPC_ERRORCODES. -/
def METHOD_NOT_FOUND : Int := -32601

/-- Canonical code INVALID_PARAMS from JSONRPC_ERRORCODES. -/
def INVALID_PARAMS : Int := -32602

/-- Canonical code INTERNAL_ERROR from JSONRPC_ERRORCODES. -/
def INTERNAL_ERROR : Int := -32603

/-- An integer JavaScript number as a value. -/
def jsNum (m : Int) : JsValue := JsValue.num (JsNumber.fin m 0)

/-- An ErrorObject as built by `createErrorObject`: runtime fields of the
record `{ code, message, data? }`; `data : none` models the absent field. -/
structure ErrorObject where
  code : JsValue
  message : JsValue
  data : Option JsValue
deriving DecidableEq

/-- Source `createErrorObject(code, message?, data?)`.  An absent argument is
passed as `JsValue.undef`, exactly as JavaScript does. -/
def createErrorObject (code message data : JsValue) : ErrorObject :=
  { code := if isNumeric code then code else jsNum INTERNAL_ERROR
  , message := if message.truthy then message else JsValue.str "Unspecified error"
  , data := if data.truthy then some data else none }

/-- The record an ErrorObject denotes as a plain JavaScript value. -/
def errorObjectToJsValue (e : ErrorObject) : JsValue :=
  jsObj ([("code", e.code), ("message", e.message)] ++
    (match e.data with
     | some d => [("data", d)]
     | none => []))

/-- Source constructor of `JsonRpcRequestException`: the stored `errorObj`
value.  `if (isNumeric(codeOrObject))` it is `createErrorObject(codeOrObject,
message, data)`, otherwise the first argument itself is stored unchanged. -/
def JsonRpcRequestException.makeErrorObj (codeOrObject message data : JsValue) : JsValue :=
  if isNumeric codeOrObject then
    errorObjectToJsValue (createErrorObject codeOrObject message data)
  else codeOrObject

/-- A fault carried by a rejected promise or thrown by handler code: either
an instance of JsonRpcRequestException (with its stored errorObj value) or
any other thrown value. -/
inductive JsError where
  | protocolExc (errorObj : JsValue)
  | other (value : JsValue)
deriving DecidableEq

/-- A response record: `result`/`error` model presence of the field, `id` is
the raw id value. -/
structure JsonRpcResponse where
  jsonrpc : String
  result : Option JsValue
  error : Option ErrorObject
  id : JsValue
deriving DecidableEq

/-- Source `createErrorResponse(id, code, message?, data?)`; an `undefined`
id becomes null. -/
def createErrorResponse (id code message data : JsValue) : JsonRpcResponse :=
  { jsonrpc := "2.0"
  , result := none
  , error := some (createErrorObject code message data)
  , id := if id = JsValue.undef then JsValue.null else id }

/-- Source `createParseErrorResponse(message = "Unable to parse JSON", data?)`. -/
def createParseErrorResponse (message data : JsValue) : JsonRpcResponse :=
  createErrorResponse JsValue.null (jsNum PARSE_ERROR)
    (if message = JsValue.undef then JsValue.str "Unable to parse JSON" else message) data

/-- Source `createResultResponse(result, id)`. -/
def createResultResponse (result : JsValue) (id : JsValue) : JsonRpcResponse :=
  { jsonrpc := "2.0", result := some result, error := none, id := id }

/-- A registered method: receives `(params, requestContext)` and either
resolves to a value or faults (throws, or returns a promise that rejects). -/
abbrev JsHandler := JsValue → JsValue → Except JsError JsValue

/-- The fallback callback: receives `(method, params, requestContext)`. -/
abbrev MethodCallback := String → JsValue → JsValue → Except JsError JsValue

/-- The server state: the method table and the optional fallback callback. -/
structure TinyJsonRpcServer where
  _methods : List (String × JsHandler)
  _methodCallback : Option MethodCallback

/-- Source `registerMethods`: object spread, later entries shadow earlier
ones (lookup finds the first match, so new entries go in front). -/
def registerMethods (s : TinyJsonRpcServer) (methodObj : List (String × JsHandler)) :
    TinyJsonRpcServer :=
  { s with _methods := methodObj ++ s._methods }

/-- Source `registerMethodCallback`. -/
def registerMethodCallback (s : TinyJsonRpcServer) (methodCallback : MethodCallback) :
    TinyJsonRpcServer :=
  { s with _methodCallback := some methodCallback }

/-- Source `_validateRequest(request)`: an error response on failure, null
(`none`) on success.  The checks and their order are translated one for one:
non-object, falsy jsonrpc, id present but neither isNumeric nor isString nor
null, method not a non-empty string, truthy params that is neither an array
nor typeof function nor typeof object.  `requestId` stays null until the id
check has passed. -/
def _validateRequest (request : JsValue) : Option JsonRpcResponse :=
  if !request.isObjectLike then
    some (createErrorResponse JsValue.null (jsNum INVALID_REQUEST)
      (JsValue.str "Invalid request") JsValue.undef)
  else if !(request.getField "jsonrpc").truthy then
    some (createErrorResponse JsValue.null (jsNum INVALID_REQUEST)
      (JsValue.str "Invalid request, missing jsonrpc version") JsValue.undef)
  else if request.hasField "id"
      && !(isNumeric (request.getField "id") || isString (request.getField "id")
           || request.getField "id" = JsValue.null) then
    some (createErrorResponse JsValue.null (jsNum INVALID_REQUEST)
      (JsValue.str "Invalid request, invalid id") JsValue.undef)
  else
    let requestId := if request.hasField "id" then request.getField "id" else JsValue.null
    if !isString (request.getField "method") || request.getField "method" = JsValue.str "" then
      some (createErrorResponse requestId (jsNum INVALID_REQUEST)
        (JsValue.str "Invalid request, missing method") JsValue.undef)
    else if (request.getField "params").truthy
        && !(jsIsArray (request.getField "params")
             || jsTypeof (request.getField "params") = "function"
             || jsTypeof (request.getField "params") = "object") then
      some (createErrorResponse requestId (jsNum INVALID_REQUEST)
        (JsValue.str "Invalid request, invalid parameter type") JsValue.undef)
    else none

/-- String content of a value known to be a string (used on the method name
after validation has established it is a string). -/
def jsAsString : JsValue → String
  | .str s => s
  | _ => ""

/-- The body of `_handleJsonRpcRequest` up to and including awaiting the
result: everything inside the first `.then`.  An `Except.error` value is a
fault flowing to the catch clauses, paired with the `requestId` variable as
it stands when the fault occurs (the only faulting steps run after the id
has been resolved). -/
def _handleJsonRpcRequestCore (s : TinyJsonRpcServer) (request requestContext : JsValue) :
    Except (JsError × JsValue) (Option JsonRpcResponse) :=
  match _validateRequest request with
  | some errorResponse => Except.ok (some errorResponse)
  | none =>
    let hasRequestId := request.hasField "id"
    let requestId := if hasRequestId then request.getField "id" else JsValue.null
    let methodName := jsAsString (request.getField "method")
    let invocation : Except JsError (Option JsonRpcResponse ⊕ JsValue) :=
      match s._methods.lookup methodName with
      | some method =>
        (method (request.getField "params") requestContext).map Sum.inr
      | none =>
        let callbackResult : Except JsError JsValue :=
          match s._methodCallback with
          | some callback => callback methodName (request.getField "params") requestContext
          | none => Except.ok JsValue.undef
        match callbackResult with
        | Except.error e => Except.error e
        | Except.ok v =>
          if v = JsValue.undef then
            Except.ok (Sum.inl (some (createErrorResponse requestId (jsNum METHOD_NOT_FOUND)
              (JsValue.str ("Method '" ++ methodName ++ "' not found")) JsValue.undef)))
          else Except.ok (Sum.inr v)
    match invocation with
    | Except.error e => Except.error (e, requestId)
    | Except.ok (Sum.inl response) => Except.ok response
    | Except.ok (Sum.inr result) =>
      Except.ok (if hasRequestId then some (createResultResponse result requestId) else none)

/-- Whether a JavaScript property read on this receiver throws a TypeError:
exactly for undefined and null.  Every other value is boxed and the read
yields a value (undefined for a missing property), which `getField` gives. -/
def jsPropertyAccessThrows : JsValue → Bool
  | .undef => true
  | .null => true
  | _ => false

/-- Source `_handleJsonRpcRequest(request, requestContext)`: the body plus
its catch clauses.  A JsonRpcRequestException fault becomes an error
response built from the stored errorObj field reads — unless the stored
errorObj is undefined or null, in which case reading `.code` on it throws a
TypeError inside the first catch clause, and the second catch (the safety
net) answers "A critical error occurred when handling request" with the
resolved id.  Any other fault becomes the INTERNAL_ERROR response of the
first catch. -/
def _handleJsonRpcRequest (s : TinyJsonRpcServer) (request requestContext : JsValue) :
    Option JsonRpcResponse :=
  match _handleJsonRpcRequestCore s request requestContext with
  | Except.ok response => response
  | Except.error (JsError.protocolExc errorObj, requestId) =>
    if jsPropertyAccessThrows errorObj then
      some (createErrorResponse requestId (jsNum INTERNAL_ERROR)
        (JsValue.str "A critical error occurred when handling request") JsValue.undef)
    else
      some (createErrorResponse requestId (errorObj.getField "code")
        (errorObj.getField "message") (errorObj.getField "data"))
  | Except.error (JsError.other _, requestId) =>
    some (createErrorResponse requestId (jsNum INTERNAL_ERROR)
      (JsValue.str "An error occurred when handling request") JsValue.undef)

/-- Source `_handleJsonRpcBatchRequest(requests, requestContext)`:
Promise.all over the single-request executor (its value is the list of
outcomes in input-index order), removal of the null outcomes, null when the
filtered list is empty.  The source catch clause cannot fire because the
executor is total, so the value is always `Except.ok`. -/
def _handleJsonRpcBatchRequest (s : TinyJsonRpcServer) (requests : List JsValue)
    (requestContext : JsValue) : Except JsonRpcResponse (Option (List JsonRpcResponse)) :=
  let responses := requests.map (fun request => _handleJsonRpcRequest s request requestContext)
  let filtered := responses.filterMap id
  if filtered = [] then Except.ok none else Except.ok (some filtered)

/-- The value the top-level promise resolves to: one response, an array of
responses, or null. -/
inductive HandleOutcome where
  | single (response : JsonRpcResponse)
  | batch (responses : List JsonRpcResponse)
  | nil
deriving DecidableEq

/-- The body of `handleJsonRpcRequest` after the parse step: array branch
(empty-array error, else batch) or single-request branch. -/
def handleParsed (s : TinyJsonRpcServer) (request requestContext : JsValue) : HandleOutcome :=
  match request with
  | JsValue.arr elems =>
    let requests := elems.toList
    if requests = [] then
      HandleOutcome.single (createErrorResponse JsValue.null (jsNum INVALID_REQUEST)
        (JsValue.str "Invalid request, missing request object(s)") JsValue.undef)
    else
      match _handleJsonRpcBatchRequest s requests requestContext with
      | Except.ok (some responses) => HandleOutcome.batch responses
      | Except.ok none => HandleOutcome.nil
      | Except.error response => HandleOutcome.single response
  | other =>
    match _handleJsonRpcRequest s other requestContext with
    | some response => HandleOutcome.single response
    | none => HandleOutcome.nil

/-- The body of `handleJsonRpcRequest` (everything inside the top `.then`):
parse strings (a parse failure yields the parse-error response), then branch
on array versus single request.  `parseJson` stands for the host JSON.parse,
a parameter of the model. -/
def handleJsonRpcRequestCore (s : TinyJsonRpcServer)
    (parseJson : String → Except JsValue JsValue) (request requestContext : JsValue) :
    Except JsValue HandleOutcome :=
  match request with
  | JsValue.str text =>
    match parseJson text with
    | Except.error _ =>
      Except.ok (HandleOutcome.single (createParseErrorResponse JsValue.undef JsValue.undef))
    | Except.ok parsed => Except.ok (handleParsed s parsed requestContext)
  | other => Except.ok (handleParsed s other requestContext)

/-- Source `handleJsonRpcRequest(request, requestContext = {})`: the body
plus the final catch clause, which turns any escaping fault into the
INTERNAL_ERROR response carrying the fault as data. -/
def handleJsonRpcRequest (s : TinyJsonRpcServer)
    (parseJson : String → Except JsValue JsValue) (request requestContext : JsValue) :
    HandleOutcome :=
  match handleJsonRpcRequestCore s parseJson request requestContext with
  | Except.ok outcome => outcome
  | Except.error e =>
    HandleOutcome.single (createErrorResponse JsValue.null (jsNum INTERNAL_ERROR)
      (JsValue.str "An error occurred when processing request") e)

/-- The id the executor resolves for a validated request: the id field when
present, null for a notification (source lines 231 to 232). -/
def resolvedId (request : JsValue) : JsValue :=
  if request.hasField "id" then request.getField "id" else JsValue.null

/-- Whether a value is a number (the literal reading of "a number", for
comparison with the implemented isNumeric coercion test). -/
def isNumberValue : JsValue → Bool
  | .num _ => true
  | _ => false

/-- One batch entry succeeds: a request with an id resolves to an error-free
response, a notification resolves to null. -/
def ExecSucceeds (s : TinyJsonRpcServer) (requestContext request : JsValue) : Prop :=
  if request.hasField "id" then
    ∃ response, _handleJsonRpcRequest s request requestContext = some response ∧
      response.error = none
  else _handleJsonRpcRequest s request requestContext = none

/-- Empty request context, the default argument of the dispatcher. -/
def emptyContext : JsValue := jsObj []

/-- A handler that resolves to the number 7. -/
def constantHandler : JsHandler := fun _ _ => Except.ok (jsNum 7)

/-- A handler that faults with a plain (non-protocol) thrown value. -/
def throwingHandler : JsHandler := fun _ _ =>
  Except.error (JsError.other (JsValue.str "boom"))

/-- A handler that throws a JsonRpcRequestException built from a ready
ErrorObject record whose message is the empty string. -/
def protocolThrowingHandler : JsHandler := fun _ _ =>
  Except.error (JsError.protocolExc (jsObj [("code", jsNum (-32000)), ("message", JsValue.str "")]))

/-- A server with one method "m" resolving to 7. -/
def constantServer : TinyJsonRpcServer :=
  { _methods := [("m", constantHandler)], _methodCallback := none }

/-- A server with one method "m" that faults with a plain thrown value. -/
def throwingServer : TinyJsonRpcServer :=
  { _methods := [("m", throwingHandler)], _methodCallback := none }

/-- A server with one method "m" that throws a protocol exception. -/
def protocolThrowingServer : TinyJsonRpcServer :=
  { _methods := [("m", protocolThrowingHandler)], _methodCallback := none }

/-- A handler that throws a JsonRpcRequestException constructed with the
first argument undefined — the stored errorObj is undefined (isNumeric of
undefined is false, so the argument is stored unchanged), and reading its
code field in the first catch clause throws. -/
def undefErrorObjThrowingHandler : JsHandler := fun _ _ =>
  Except.error (JsError.protocolExc
    (JsonRpcRequestException.makeErrorObj JsValue.undef JsValue.undef JsValue.undef))

/-- A server with one method "m" that throws a JsonRpcRequestException
whose stored errorObj is undefined. -/
def criticalThrowingServer : TinyJsonRpcServer :=
  { _methods := [("m", undefErrorObjThrowingHandler)], _methodCallback := none }

/-- A server with no methods and a fallback callback that resolves to null
for every method name. -/
def nullFallbackServer : TinyJsonRpcServer :=
  { _methods := [], _methodCallback := some (fun _ _ _ => Except.ok JsValue.null) }

/-- A server with no methods and a fallback callback that resolves to
undefined for every method name. -/
def undefFallbackServer : TinyJsonRpcServer :=
  { _methods := [], _methodCallback := some (fun _ _ _ => Except.ok JsValue.undef) }

/-- A well-formed request for method "m" carrying the given id. -/
def requestWithId (id : JsValue) : JsValue :=
  jsObj [("jsonrpc", JsValue.str "2.0"), ("method", JsValue.str "m"), ("id", id)]

/-- A well-formed notification (no id field) for method "m". -/
def notificationRequest : JsValue :=
  jsObj [("jsonrpc", JsValue.str "2.0"), ("method", JsValue.str "m")]

/-- A host parse function that always fails. -/
def failingParse : String → Except JsValue JsValue := fun _ => Except.error JsValue.undef

/-- A host parse function that always yields the empty array. -/
def emptyArrayParse : String → Except JsValue JsValue := fun _ => Except.ok (jsArr [])

/-- Helper: partition a list length by a Boolean predicate. -/
theorem filter_length_partition (p : JsValue → Bool) (l : List JsValue) :
    (l.filter p).length + (l.filter (fun r => !p r)).length = l.length := by
  induction l with
  | nil => simp
  | cons a t ih =>
    by_cases h : p a <;> simp [List.filter_cons, h] <;> omega

/-- Helper: the non-null entries, wrapped back into options, form a sublist
of the original option list (so relative order is preserved). -/
theorem filterMap_map_some_sublist {α : Type} (l : List (Option α)) :
    List.Sublist ((l.filterMap id).map some) l := by
  induction l with
  | nil => simp
  | cons a t ih =>
    cases a with
    | none => simpa [List.filterMap_cons] using List.Sublist.cons none ih
    | some x => simpa [List.filterMap_cons] using List.Sublist.cons₂ (some x) ih

/-- C7 counterexample: the finite but non-integer code 1.5 is kept verbatim
by `createErrorObject` instead of being replaced with INTERNAL_ERROR, so
"the given code when it is a valid integer-like number and INTERNAL_ERROR
otherwise" fails at code = 1.5 (a number that is not integer-like). -/
theorem claim_C7_counterexample :
    (createErrorObject (JsValue.num (JsNumber.fin 15 1)) JsValue.undef JsValue.undef).code
      = JsValue.num (JsNumber.fin 15 1)
    ∧ jsNumberIsInt (JsNumber.fin 15 1) = false
    ∧ JsValue.num (JsNumber.fin 15 1) ≠ jsNum INTERNAL_ERROR := by
  decide

/-- C7 amended: `createErrorObject(code, message, data)` keeps the given
code exactly when `isNumeric` holds of it (it coerces to a finite number;
fractional values included), substituting INTERNAL_ERROR otherwise; the
message is kept when truthy (a non-empty string) and defaults to
"Unspecified error" when empty or absent; a data field is present if and
only if the given data is provided and truthy. -/
theorem claim_C7_createErrorObject :
    ∀ code message data : JsValue,
    ((isNumeric code = true → (createErrorObject code message data).code = code)
      ∧ (isNumeric code = false →
          (createErrorObject code message data).code = jsNum INTERNAL_ERROR))
    ∧ ((message.truthy = true → (createErrorObject code message data).message = message)
      ∧ (message.truthy = false →
          (createErrorObject code message data).message = JsValue.str "Unspecified error"))
    ∧ ((data.truthy = true → (createErrorObject code message data).data = some data)
      ∧ (data.truthy = false → (createErrorObject code message data).data = none)) := by
  intro code message data
  refine ⟨⟨?_, ?_⟩, ⟨?_, ?_⟩, ⟨?_, ?_⟩⟩ <;> intro h <;> simp [createErrorObject, h]

/-- C7 witness: the amended theorem applied at a numeric code with a truthy
message and at an absent message. -/
theorem claim_C7_witness :
    (createErrorObject (jsNum 5) (JsValue.str "msg") (jsNum 1)).code = jsNum 5
    ∧ (createErrorObject (jsNum 5) JsValue.undef JsValue.undef).message
        = JsValue.str "Unspecified error" :=
  ⟨(claim_C7_createErrorObject (jsNum 5) (JsValue.str "msg") (jsNum 1)).1.1 (by decide),
   (claim_C7_createErrorObject (jsNum 5) JsValue.undef JsValue.undef).2.1.2 (by decide)⟩

/-- C8 counterexample: NaN as first constructor argument is not an
object/structured value, yet the stored errorObj is NaN itself, not
`createErrorObject(NaN, message, data)` as the claim requires (the source
branches on `isNumeric`, which rejects NaN, not on object-ness). -/
theorem claim_C8_counterexample :
    JsValue.isObjectLike (JsValue.num JsNumber.nan) = false
    ∧ JsonRpcRequestException.makeErrorObj (JsValue.num JsNumber.nan) JsValue.undef JsValue.undef
        = JsValue.num JsNumber.nan
    ∧ JsValue.num JsNumber.nan
        ≠ errorObjectToJsValue (createErrorObject (JsValue.num JsNumber.nan)
            JsValue.undef JsValue.undef) := by
  decide

/-- C8 amended: the constructor stores `createErrorObject(code, message,
data)` exactly when the first argument satisfies `isNumeric` (coerces to a
finite number), and stores the first argument unchanged otherwise — in
particular for every plain-object first argument (objects never satisfy
isNumeric), but also for the non-finite numbers NaN and Infinity. -/
theorem claim_C8_exception_constructor :
    ∀ codeOrObject message data : JsValue,
    (isNumeric codeOrObject = true →
      JsonRpcRequestException.makeErrorObj codeOrObject message data =
        errorObjectToJsValue (createErrorObject codeOrObject message data))
    ∧ (isNumeric codeOrObject = false →
      JsonRpcRequestException.makeErrorObj codeOrObject message data = codeOrObject)
    ∧ (∀ fields : JsFieldList, isNumeric (JsValue.obj fields) = false) := by
  intro codeOrObject message data
  refine ⟨?_, ?_, ?_⟩
  · intro h; simp [JsonRpcRequestException.makeErrorObj, h]
  · intro h; simp [JsonRpcRequestException.makeErrorObj, h]
  · intro fields
    simp only [isNumeric, toNumber]
    decide

/-- C8 witness: the amended theorem applied to a ready ErrorObject record
(stored unchanged) and to a finite numeric code (built by
createErrorObject). -/
theorem claim_C8_witness :
    JsonRpcRequestException.makeErrorObj
        (jsObj [("code", jsNum 5), ("message", JsValue.str "x")]) JsValue.undef JsValue.undef
      = jsObj [("code", jsNum 5), ("message", JsValue.str "x")]
    ∧ JsonRpcRequestException.makeErrorObj (jsNum 5) (JsValue.str "x") JsValue.undef
      = errorObjectToJsValue (createErrorObject (jsNum 5) (JsValue.str "x") JsValue.undef) :=
  ⟨(claim_C8_exception_constructor (jsObj [("code", jsNum 5), ("message", JsValue.str "x")])
      JsValue.undef JsValue.undef).2.1 (by decide),
   (claim_C8_exception_constructor (jsNum 5) (JsValue.str "x") JsValue.undef).1 (by decide)⟩

/-- C6 confirmed: an empty array input — given directly or produced by the
parse step — yields the single INVALID_REQUEST "Invalid request, missing
request object(s)" response with id null.  The statement is universally
quantified over the server, so no registered handler and no fallback can
influence the outcome, and the outcome is a single response (the
`HandleOutcome.single` constructor), not an empty array. -/
theorem claim_C6_empty_batch :
    ∀ (s : TinyJsonRpcServer) (parseJson : String → Except JsValue JsValue)
      (requestContext : JsValue),
    handleJsonRpcRequest s parseJson (jsArr []) requestContext =
      HandleOutcome.single (createErrorResponse JsValue.null (jsNum INVALID_REQUEST)
        (JsValue.str "Invalid request, missing request object(s)") JsValue.undef)
    ∧ ∀ text : String, parseJson text = Except.ok (jsArr []) →
      handleJsonRpcRequest s parseJson (JsValue.str text) requestContext =
        HandleOutcome.single (createErrorResponse JsValue.null (jsNum INVALID_REQUEST)
          (JsValue.str "Invalid request, missing request object(s)") JsValue.undef) := by
  intro s parseJson requestContext
  constructor
  · rfl
  · intro text h
    simp [handleJsonRpcRequest, handleJsonRpcRequestCore, h, jsArr, jsValueListOf,
      handleParsed, JsValueList.toList]

/-- C6 witness: the theorem applied to a concrete server and a parse
function that returns the empty array for the text "[]". -/
theorem claim_C6_witness :
    handleJsonRpcRequest constantServer emptyArrayParse (JsValue.str "[]") emptyContext =
      HandleOutcome.single (createErrorResponse JsValue.null (jsNum INVALID_REQUEST)
        (JsValue.str "Invalid request, missing request object(s)") JsValue.undef) :=
  (claim_C6_empty_batch constantServer emptyArrayParse emptyContext).2 "[]" rfl

/-- C2 counterexample: the id `true` is not a number, not a string and not
null, so by check (3) of the claim validation must fail with "Invalid
request, invalid id"; the code accepts the request (isNumeric coerces the
boolean to the finite number 1). -/
theorem claim_C2_counterexample :
    _validateRequest (jsObj [("jsonrpc", JsValue.str "2.0"), ("method", JsValue.str "m"),
        ("id", JsValue.bool true)]) = none
    ∧ (jsObj [("jsonrpc", JsValue.str "2.0"), ("method", JsValue.str "m"),
        ("id", JsValue.bool true)]).hasField "id" = true
    ∧ isNumberValue (JsValue.bool true) = false
    ∧ isString (JsValue.bool true) = false
    ∧ JsValue.bool true ≠ JsValue.null := by
  decide

/-- C2 amended: `_validateRequest` performs exactly these checks in this
order, short-circuiting on the first failure, and returns null when all
pass: (1) a non-object value yields INVALID_REQUEST "Invalid request" with
id null; (2) a falsy jsonrpc field yields "Invalid request, missing jsonrpc
version" with id null (no version equality check); (3) an id field that is
present and neither satisfies isNumeric (coercion to a finite number — this
also accepts booleans and some arrays, and rejects NaN and the infinities)
nor is a string nor null yields "Invalid request, invalid id" with id null,
and an id passing the check is retained for later error responses; (4) a
method that is not a non-empty string yields "Invalid request, missing
method" with the retained id; (5) a truthy params value that is not an
array, a function, or typeof object yields "Invalid request, invalid
parameter type" with the retained id. -/
theorem claim_C2_validator :
    ∀ request : JsValue,
    (request.isObjectLike = false →
      _validateRequest request = some (createErrorResponse JsValue.null (jsNum INVALID_REQUEST)
        (JsValue.str "Invalid request") JsValue.undef))
    ∧ (request.isObjectLike = true →
       (request.getField "jsonrpc").truthy = false →
      _validateRequest request = some (createErrorResponse JsValue.null (jsNum INVALID_REQUEST)
        (JsValue.str "Invalid request, missing jsonrpc version") JsValue.undef))
    ∧ (request.isObjectLike = true →
       (request.getField "jsonrpc").truthy = true →
       request.hasField "id" = true →
       (isNumeric (request.getField "id") || isString (request.getField "id")
         || request.getField "id" = JsValue.null) = false →
      _validateRequest request = some (createErrorResponse JsValue.null (jsNum INVALID_REQUEST)
        (JsValue.str "Invalid request, invalid id") JsValue.undef))
    ∧ (request.isObjectLike = true →
       (request.getField "jsonrpc").truthy = true →
       (request.hasField "id"
         && !(isNumeric (request.getField "id") || isString (request.getField "id")
           || request.getField "id" = JsValue.null)) = false →
       (!isString (request.getField "method")
         || request.getField "method" = JsValue.str "") = true →
      _validateRequest request = some (createErrorResponse (resolvedId request)
        (jsNum INVALID_REQUEST) (JsValue.str "Invalid request, missing method") JsValue.undef))
    ∧ (request.isObjectLike = true →
       (request.getField "jsonrpc").truthy = true →
       (request.hasField "id"
         && !(isNumeric (request.getField "id") || isString (request.getField "id")
           || request.getField "id" = JsValue.null)) = false →
       (!isString (request.getField "method")
         || request.getField "method" = JsValue.str "") = false →
       ((request.getField "params").truthy
         && !(jsIsArray (request.getField "params")
           || jsTypeof (request.getField "params") = "function"
           || jsTypeof (request.getField "params") = "object")) = true →
      _validateRequest request = some (createErrorResponse (resolvedId request)
        (jsNum INVALID_REQUEST) (JsValue.str "Invalid request, invalid parameter type")
        JsValue.undef))
    ∧ (request.isObjectLike = true →
       (request.getField "jsonrpc").truthy = true →
       (request.hasField "id"
         && !(isNumeric (request.getField "id") || isString (request.getField "id")
           || request.getField "id" = JsValue.null)) = false →
       (!isString (request.getField "method")
         || request.getField "method" = JsValue.str "") = false →
       ((request.getField "params").truthy
         && !(jsIsArray (request.getField "params")
           || jsTypeof (request.getField "params") = "function"
           || jsTypeof (request.getField "params") = "object")) = false →
      _validateRequest request = none) := by
  intro request
  refine ⟨?_, ?_, ?_, ?_, ?_, ?_⟩
  · intro h1
    simp [_validateRequest, h1]
  · intro h1 h2
    simp [_validateRequest, h1, h2]
  · intro h1 h2 hid hbad
    simp [_validateRequest, h1, h2, hid, hbad]
  · intro h1 h2 h3 h4
    simp only [_validateRequest, resolvedId, h1, h2, h3, h4]
    simp
  · intro h1 h2 h3 h4 h5
    simp only [_validateRequest, resolvedId, h1, h2, h3, h4, h5]
    simp
  · intro h1 h2 h3 h4 h5
    simp only [_validateRequest, h1, h2, h3, h4, h5]
    simp

/-- C2 witness: the amended theorem applied to a request whose id is NaN —
present, not isNumeric, not a string, not null — giving the invalid-id
error with id null. -/
theorem claim_C2_witness :
    _validateRequest (jsObj [("jsonrpc", JsValue.str "2.0"), ("method", JsValue.str "m"),
        ("id", JsValue.num JsNumber.nan)]) =
      some (createErrorResponse JsValue.null (jsNum INVALID_REQUEST)
        (JsValue.str "Invalid request, invalid id") JsValue.undef) :=
  (claim_C2_validator (jsObj [("jsonrpc", JsValue.str "2.0"), ("method", JsValue.str "m"),
      ("id", JsValue.num JsNumber.nan)])).2.2.1
    (by decide) (by decide) (by decide) (by decide)

/-- C3 confirmed: for a valid single request whose registered method
resolves with value v, the executor returns the result response pairing v
with exactly the id field of the request when the id field is present
(whatever its value, including 0, the empty string and null), and returns
null — discarding v — when the id field is absent (notification). -/
theorem claim_C3_result_response :
    ∀ (s : TinyJsonRpcServer) (request requestContext : JsValue) (name : String)
      (method : JsHandler) (v : JsValue),
    _validateRequest request = none →
    request.getField "method" = JsValue.str name →
    s._methods.lookup name = some method →
    method (request.getField "params") requestContext = Except.ok v →
    (request.hasField "id" = true →
      _handleJsonRpcRequest s request requestContext =
        some (createResultResponse v (request.getField "id")))
    ∧ (request.hasField "id" = false →
      _handleJsonRpcRequest s request requestContext = none) := by
  intro s request requestContext name method v hval hm hlook hok
  constructor
  · intro hid
    simp [_handleJsonRpcRequest, _handleJsonRpcRequestCore, hval, hm, hlook, hok,
      jsAsString, hid, Except.map]
  · intro hid
    simp [_handleJsonRpcRequest, _handleJsonRpcRequestCore, hval, hm, hlook, hok,
      jsAsString, hid, Except.map]

/-- C3 witness: the theorem applied at id 0 (the response id is exactly 0)
and at a notification (null outcome). -/
theorem claim_C3_witness :
    _handleJsonRpcRequest constantServer (requestWithId (jsNum 0)) emptyContext =
      some (createResultResponse (jsNum 7) (jsNum 0))
    ∧ _handleJsonRpcRequest constantServer notificationRequest emptyContext = none :=
  ⟨((claim_C3_result_response constantServer (requestWithId (jsNum 0)) emptyContext "m"
      constantHandler (jsNum 7)) (by decide) (by decide) rfl rfl).1 (by decide),
   ((claim_C3_result_response constantServer notificationRequest emptyContext "m"
      constantHandler (jsNum 7)) (by decide) (by decide) rfl rfl).2 (by decide)⟩

/-- C4 counterexample: a handler throws a JsonRpcRequestException built from
the ready ErrorObject record `{code: -32000, message: ""}`.  The claim says
the response error carries exactly the stored code, message and data; the
actual response message is "Unspecified error", because the catch clause
rebuilds the error with `createErrorObject`, which replaces the falsy empty
message. -/
theorem claim_C4_counterexample :
    _handleJsonRpcRequest protocolThrowingServer (requestWithId (jsNum 1)) emptyContext =
      some ⟨"2.0", none, some ⟨jsNum (-32000), JsValue.str "Unspecified error", none⟩, jsNum 1⟩
    ∧ JsValue.str "Unspecified error" ≠ JsValue.str "" := by
  decide

/-- C4 amended: when the invocation of a registered method for a valid
request faults, the executor returns a non-null error response even for a
notification (whose resolved id is null): for a JsonRpcRequestException
whose stored errorObj supports property reads (it is not undefined and not
null) it is `createErrorResponse(resolvedId, errorObj.code,
errorObj.message, errorObj.data)` — the stored fields re-normalized through
`createErrorObject`, hence equal to the stored ones exactly when the code
satisfies isNumeric, the message is truthy and the data is truthy or absent
— while a JsonRpcRequestException whose stored errorObj is undefined or
null makes the field read inside the first catch clause throw, so the
second safety net answers INTERNAL_ERROR "A critical error occurred when
handling request" with the resolved id; for any other fault it is the
INTERNAL_ERROR response with message "An error occurred when handling
request". -/
theorem claim_C4_failure_outcomes :
    ∀ (s : TinyJsonRpcServer) (request requestContext : JsValue) (name : String)
      (method : JsHandler) (e : JsError),
    _validateRequest request = none →
    request.getField "method" = JsValue.str name →
    s._methods.lookup name = some method →
    method (request.getField "params") requestContext = Except.error e →
    _handleJsonRpcRequest s request requestContext =
      some (match e with
        | JsError.protocolExc errorObj =>
          if jsPropertyAccessThrows errorObj then
            createErrorResponse (resolvedId request) (jsNum INTERNAL_ERROR)
              (JsValue.str "A critical error occurred when handling request") JsValue.undef
          else
            createErrorResponse (resolvedId request) (errorObj.getField "code")
              (errorObj.getField "message") (errorObj.getField "data")
        | JsError.other _ =>
          createErrorResponse (resolvedId request) (jsNum INTERNAL_ERROR)
            (JsValue.str "An error occurred when handling request") JsValue.undef) := by
  intro s request requestContext name method e hval hm hlook herr
  cases e with
  | protocolExc errorObj =>
    by_cases hthrows : jsPropertyAccessThrows errorObj = true
    · simp [_handleJsonRpcRequest, _handleJsonRpcRequestCore, resolvedId, hval, hm, hlook,
        herr, jsAsString, Except.map, hthrows]
    · simp [_handleJsonRpcRequest, _handleJsonRpcRequestCore, resolvedId, hval, hm, hlook,
        herr, jsAsString, Except.map, hthrows]
  | other v =>
    simp [_handleJsonRpcRequest, _handleJsonRpcRequestCore, resolvedId, hval, hm, hlook,
      herr, jsAsString, Except.map]

/-- C4 witness: the amended theorem applied to a notification whose handler
faults with a plain thrown value (non-null INTERNAL_ERROR response with id
null) and to a request whose handler throws a JsonRpcRequestException with
an undefined stored errorObj (the second safety net answers the critical
error response). -/
theorem claim_C4_witness :
    _handleJsonRpcRequest throwingServer notificationRequest emptyContext =
      some (createErrorResponse JsValue.null (jsNum INTERNAL_ERROR)
        (JsValue.str "An error occurred when handling request") JsValue.undef)
    ∧ _handleJsonRpcRequest criticalThrowingServer (requestWithId (jsNum 9)) emptyContext =
      some (createErrorResponse (jsNum 9) (jsNum INTERNAL_ERROR)
        (JsValue.str "A critical error occurred when handling request") JsValue.undef) := by
  constructor
  · have h := claim_C4_failure_outcomes throwingServer notificationRequest emptyContext "m"
      throwingHandler (JsError.other (JsValue.str "boom")) (by decide) (by decide) rfl rfl
    exact h
  · have h := claim_C4_failure_outcomes criticalThrowingServer (requestWithId (jsNum 9))
      emptyContext "m" undefErrorObjThrowingHandler
      (JsError.protocolExc (JsonRpcRequestException.makeErrorObj JsValue.undef JsValue.undef
        JsValue.undef)) (by decide) (by decide) rfl rfl
    simpa using h

/-- C9 counterexample: for a valid notification (no id field) whose method
is not registered, a fallback returning null makes the executor return null
(the notification outcome), not a result response with result null as the
claim demands for every valid request. -/
theorem claim_C9_counterexample :
    _handleJsonRpcRequest nullFallbackServer notificationRequest emptyContext = none
    ∧ _handleJsonRpcRequest nullFallbackServer notificationRequest emptyContext
        ≠ some (createResultResponse JsValue.null JsValue.null) := by
  decide

/-- C9 amended: for a valid request, a registered method takes precedence
(the outcome does not depend on the fallback callback); when the method is
not registered, the fallback is invoked with (name, params, context); a
fallback resolving to undefined, or no fallback at all, yields the
METHOD_NOT_FOUND response (its message naming the method) with the resolved id
(also for notifications); a fallback resolving to null is treated as found:
it yields a result response with result null when the request has an id,
and the null notification outcome when it does not. -/
theorem claim_C9_method_resolution :
    ∀ (s : TinyJsonRpcServer) (request requestContext : JsValue) (name : String),
    _validateRequest request = none →
    request.getField "method" = JsValue.str name →
    (∀ method : JsHandler, s._methods.lookup name = some method →
      _handleJsonRpcRequest s request requestContext =
        _handleJsonRpcRequest { s with _methodCallback := none } request requestContext)
    ∧ (s._methods.lookup name = none → s._methodCallback = none →
      _handleJsonRpcRequest s request requestContext =
        some (createErrorResponse (resolvedId request) (jsNum METHOD_NOT_FOUND)
          (JsValue.str ("Method '" ++ name ++ "' not found")) JsValue.undef))
    ∧ (∀ callback : MethodCallback, s._methods.lookup name = none →
        s._methodCallback = some callback →
        callback name (request.getField "params") requestContext = Except.ok JsValue.undef →
      _handleJsonRpcRequest s request requestContext =
        some (createErrorResponse (resolvedId request) (jsNum METHOD_NOT_FOUND)
          (JsValue.str ("Method '" ++ name ++ "' not found")) JsValue.undef))
    ∧ (∀ callback : MethodCallback, s._methods.lookup name = none →
        s._methodCallback = some callback →
        callback name (request.getField "params") requestContext = Except.ok JsValue.null →
      (request.hasField "id" = true →
        _handleJsonRpcRequest s request requestContext =
          some (createResultResponse JsValue.null (request.getField "id")))
      ∧ (request.hasField "id" = false →
        _handleJsonRpcRequest s request requestContext = none)) := by
  intro s request requestContext name hval hm
  refine ⟨?_, ?_, ?_, ?_⟩
  · intro method hlook
    simp [_handleJsonRpcRequest, _handleJsonRpcRequestCore, hval, hm, hlook, jsAsString]
  · intro hlook hcb
    simp [_handleJsonRpcRequest, _handleJsonRpcRequestCore, resolvedId, hval, hm, hlook,
      hcb, jsAsString]
  · intro callback hlook hcb hres
    simp [_handleJsonRpcRequest, _handleJsonRpcRequestCore, resolvedId, hval, hm, hlook,
      hcb, hres, jsAsString]
  · intro callback hlook hcb hres
    constructor
    · intro hid
      simp [_handleJsonRpcRequest, _handleJsonRpcRequestCore, hval, hm, hlook, hcb, hres,
        hid, jsAsString]
    · intro hid
      simp [_handleJsonRpcRequest, _handleJsonRpcRequestCore, hval, hm, hlook, hcb, hres,
        hid, jsAsString]

/-- C9 witness: the amended theorem applied to a server with no methods and
an undefined-returning fallback (METHOD_NOT_FOUND with the resolved id) and
to a null-returning fallback on a request with an id (result null). -/
theorem claim_C9_witness :
    _handleJsonRpcRequest undefFallbackServer (requestWithId (jsNum 4)) emptyContext =
      some (createErrorResponse (jsNum 4) (jsNum METHOD_NOT_FOUND)
        (JsValue.str "Method 'm' not found") JsValue.undef)
    ∧ _handleJsonRpcRequest nullFallbackServer (requestWithId (jsNum 4)) emptyContext =
      some (createResultResponse JsValue.null (jsNum 4)) := by
  constructor
  · have h := (claim_C9_method_resolution undefFallbackServer (requestWithId (jsNum 4))
      emptyContext "m" (by decide) (by decide)).2.2.1
      (fun _ _ _ => Except.ok JsValue.undef) rfl rfl rfl
    exact h
  · have h := ((claim_C9_method_resolution nullFallbackServer (requestWithId (jsNum 4))
      emptyContext "m" (by decide) (by decide)).2.2.2
      (fun _ _ _ => Except.ok JsValue.null) rfl rfl rfl).1 (by decide)
    exact h

/-- C1 confirmed: the top-level promise always resolves — the final catch
clause never fires, so the dispatcher value is exactly the body value, an
outcome of shape response, array of responses, or null (the three
`HandleOutcome` constructors) — for every server, every handler and
fallback behavior (including arbitrary faults), every parse function and
every input; and a fault that is not a JsonRpcRequestException surfaces
only as a response carrying error code INTERNAL_ERROR (-32603). -/
theorem claim_C1_dispatcher_total :
    ∀ (s : TinyJsonRpcServer) (parseJson : String → Except JsValue JsValue)
      (request requestContext : JsValue),
    handleJsonRpcRequestCore s parseJson request requestContext =
      Except.ok (handleJsonRpcRequest s parseJson request requestContext)
    ∧ (∀ (e : JsValue) (requestId : JsValue),
        _handleJsonRpcRequestCore s request requestContext =
          Except.error (JsError.other e, requestId) →
        _handleJsonRpcRequest s request requestContext =
          some (createErrorResponse requestId (jsNum INTERNAL_ERROR)
            (JsValue.str "An error occurred when handling request") JsValue.undef)) := by
  intro s parseJson request requestContext
  constructor
  · cases request with
    | str text =>
      cases hp : parseJson text with
      | ok parsed => simp [handleJsonRpcRequest, handleJsonRpcRequestCore, hp]
      | error err => simp [handleJsonRpcRequest, handleJsonRpcRequestCore, hp]
    | undef => rfl
    | null => rfl
    | bool b => rfl
    | num n => rfl
    | arr elems => rfl
    | obj fields => rfl
    | fn tag => rfl
  · intro e requestId h
    simp [_handleJsonRpcRequest, h]

/-- C1 witness: the theorem applied to a server whose handler faults with a
plain thrown value on a request with id 1. -/
theorem claim_C1_witness :
    _handleJsonRpcRequest throwingServer (requestWithId (jsNum 1)) emptyContext =
      some (createErrorResponse (jsNum 1) (jsNum INTERNAL_ERROR)
        (JsValue.str "An error occurred when handling request") JsValue.undef) :=
  (claim_C1_dispatcher_total throwingServer failingParse (requestWithId (jsNum 1))
    emptyContext).2 (JsValue.str "boom") (jsNum 1) rfl

/-- Helper: when every batch entry succeeds, the number of surviving
responses equals the number of entries that carry an id field. -/
theorem batch_success_length (s : TinyJsonRpcServer) (requestContext : JsValue) :
    ∀ requests : List JsValue,
    (∀ r ∈ requests, ExecSucceeds s requestContext r) →
    ((requests.map (fun r => _handleJsonRpcRequest s r requestContext)).filterMap id).length
      = (requests.filter (fun r => r.hasField "id")).length := by
  intro requests
  induction requests with
  | nil => intro _; simp
  | cons a t ih =>
    intro h
    have ha := h a (List.mem_cons_self a t)
    have ht := ih (fun r hr => h r (List.mem_cons_of_mem a hr))
    by_cases hid : a.hasField "id" = true
    · rw [ExecSucceeds, if_pos hid] at ha
      obtain ⟨response, hresp, _⟩ := ha
      have ht' := ht
      simp at ht'
      simp [List.filterMap_cons, List.filter_cons, hid, hresp, ht']
    · rw [ExecSucceeds, if_neg hid] at ha
      have hid' : a.hasField "id" = false := by
        cases hb : a.hasField "id" with
        | false => rfl
        | true => exact absurd hb hid
      have ht' := ht
      simp at ht'
      simp [List.filterMap_cons, List.filter_cons, hid', ha, ht']

/-- C5 confirmed: a non-empty batch of N requests, M of which are
notifications, in which every request succeeds, yields null when M = N and
otherwise an array of exactly N minus M responses. -/
theorem claim_C5_batch_counts :
    ∀ (s : TinyJsonRpcServer) (requestContext : JsValue) (requests : List JsValue),
    requests ≠ [] →
    (∀ r ∈ requests, ExecSucceeds s requestContext r) →
    ((requests.filter (fun r => !r.hasField "id")).length = requests.length →
      _handleJsonRpcBatchRequest s requests requestContext = Except.ok none)
    ∧ ((requests.filter (fun r => !r.hasField "id")).length < requests.length →
      ∃ responses, _handleJsonRpcBatchRequest s requests requestContext
          = Except.ok (some responses)
        ∧ responses.length
          = requests.length - (requests.filter (fun r => !r.hasField "id")).length) := by
  intro s requestContext requests hne hsucc
  have hlen := batch_success_length s requestContext requests hsucc
  have hpart := filter_length_partition (fun r => r.hasField "id") requests
  constructor
  · intro hM
    have h0 : ((requests.map
        (fun r => _handleJsonRpcRequest s r requestContext)).filterMap id).length = 0 := by
      omega
    have h0' : (requests.map
        (fun r => _handleJsonRpcRequest s r requestContext)).filterMap id = [] :=
      List.length_eq_zero.mp h0
    simp only [_handleJsonRpcBatchRequest]
    rw [if_pos h0']
  · intro hM
    refine ⟨(requests.map (fun r => _handleJsonRpcRequest s r requestContext)).filterMap id,
      ?_, ?_⟩
    · have hnonnil : (requests.map
          (fun r => _handleJsonRpcRequest s r requestContext)).filterMap id ≠ [] := by
        intro hcon
        rw [hcon] at hlen
        simp at hlen
        omega
      simp only [_handleJsonRpcBatchRequest]
      rw [if_neg hnonnil]
    · omega

/-- C5 witness: the theorem applied to the batch of one notification and
one id-carrying request against the constant server, giving one response
(2 requests, 1 notification). -/
theorem claim_C5_witness :
    ∃ responses, _handleJsonRpcBatchRequest constantServer
        [notificationRequest, requestWithId (jsNum 2)] emptyContext = Except.ok (some responses)
      ∧ responses.length
        = ([notificationRequest, requestWithId (jsNum 2)] : List JsValue).length
          - (([notificationRequest, requestWithId (jsNum 2)] : List JsValue).filter
              (fun r => !r.hasField "id")).length := by
  refine (claim_C5_batch_counts constantServer emptyContext
      [notificationRequest, requestWithId (jsNum 2)] (by decide) ?_).2 (by decide)
  intro r hr
  rcases List.mem_cons.mp hr with h | h
  · subst h
    rw [ExecSucceeds, if_neg (by decide)]
    decide
  · rcases List.mem_cons.mp h with h2 | h2
    · subst h2
      rw [ExecSucceeds, if_pos (by decide)]
      exact ⟨createResultResponse (jsNum 7) (jsNum 2), by decide, by decide⟩
    · cases h2

/-- C10 confirmed: for every non-empty batch, the batch handler value is
the per-entry executor outcomes in input order with the null entries
removed (null when nothing survives), and the surviving responses — mapped
back into the outcome list — form a sublist of the outcome list, so their
relative order matches the order of their originating requests. -/
theorem claim_C10_batch_order :
    ∀ (s : TinyJsonRpcServer) (requestContext : JsValue) (requests : List JsValue),
    requests ≠ [] →
    (_handleJsonRpcBatchRequest s requests requestContext =
      (if ((requests.map (fun r => _handleJsonRpcRequest s r requestContext)).filterMap id) = []
       then Except.ok none
       else Except.ok (some ((requests.map
          (fun r => _handleJsonRpcRequest s r requestContext)).filterMap id))))
    ∧ List.Sublist
        (((requests.map
          (fun r => _handleJsonRpcRequest s r requestContext)).filterMap id).map some)
        (requests.map (fun r => _handleJsonRpcRequest s r requestContext)) := by
  intro s requestContext requests _
  exact ⟨rfl, filterMap_map_some_sublist _⟩

/-- C10 witness: the theorem applied to a concrete two-entry batch (one
id-carrying request, one notification). -/
theorem claim_C10_witness :
    _handleJsonRpcBatchRequest constantServer [requestWithId (jsNum 1), notificationRequest]
        emptyContext =
      Except.ok (some (([requestWithId (jsNum 1), notificationRequest].map
        (fun r => _handleJsonRpcRequest constantServer r emptyContext)).filterMap id)) := by
  have h := (claim_C10_batch_order constantServer emptyContext
    [requestWithId (jsNum 1), notificationRequest] (by decide)).1
  rw [h]
  rfl
